import Mathlib

/-!
Verification of the hudu_py client library (src/hudu_py/API.py) against its
natural-language specification.

The development shallowly embeds the request/pagination engine
(`Hudu.do_request`), the lookup-table construction in `Hudu.__init__`, and the
resource façade methods the claims mention (`get_article`, `get_asset_layout`,
`update_asset`, `get_activity_logs`).  Decoded JSON payloads are modelled by an
inductive `JSON` type; the HTTP transport is modelled as an oracle
`Nat → HTTPResponse` indexed by the round-trip number, so that retries of the
same page may observe different responses.  The pagination loop is given
explicit fuel; running out of fuel models non-termination and is distinguished
from normal completion and from raised errors.  Wall-clock effects
(`time.sleep`) and logging have no observable effect on results and are not
modelled.
-/

/-- A decoded JSON value, as produced by `response.json()`.  `dict` keeps the
insertion order of keys, matching Python dictionaries, because the engine
reads `list(r_json.keys())[0]` (the first key). -/
inductive JSON where
  | null
  | bool (b : Bool)
  | num (n : Int)
  | str (s : String)
  | list (xs : List JSON)
  | dict (kvs : List (String × JSON))

/-- One raw HTTP response: the status code, the decoded JSON body, and the
optional reason phrase (`response.reason`; `none` models the attribute being
absent, cf. the `hasattr(response, 'reason')` guard). -/
structure HTTPResponse where
  status : Nat
  body : JSON
  reason : Option String

/-- The Python exceptions the embedded code can raise, by kind.
`invalidMethod` and `missingEndpoint` are the two `ValueError`s raised by the
argument checks in `do_request`; `unsupportedShape` is the
"I'm not set up to handle this type" `ValueError`; `remote` is the
`ValueError(f'Error {status} --- {reason}')` raised on a non-200/429 status;
`indexError` models `list(r_json.keys())[0]` on an empty dict; `typeError`
models `len(...)` on a value with no length; `nameError` models evaluation of
an unbound name. -/
inductive PyError where
  | invalidMethod
  | missingEndpoint
  | unsupportedShape
  | remote (status : Nat) (reason : Option String)
  | indexError
  | typeError
  | nameError (n : String)
deriving DecidableEq

/-- The mutable state of the GET pagination loop in `do_request`:
`page` and `page_size` are the entries the engine injects into the params
dict `p`; `response_size` is the local variable of the same name; `result` is
the accumulated list.  `calls` counts HTTP round-trips performed so far and
`trace` records, in order, the `(page, page_size)` pair each round-trip was
issued with; both are ghost fields recording the interaction with the
transport. -/
structure GetState where
  page : Nat
  page_size : Nat
  response_size : Nat
  result : List JSON
  calls : Nat
  trace : List (Nat × Nat)

/-- The response classifier (API.py lines 137-148): a dict payload is
unwrapped to the value under its first key (an empty dict raises `IndexError`
on `list(r_json.keys())[0]`); a list payload passes through; any other
decoded shape raises the "I'm not set up to handle this type" error. -/
def classify : JSON → Except PyError JSON
  | .dict [] => .error .indexError
  | .dict ((_, v) :: _) => .ok v
  | .list xs => .ok (.list xs)
  | _ => .error .unsupportedShape

/-- Processing of one HTTP 200 body (API.py lines 136-161): classify, then
if the extracted data is a dict the response size becomes 1 and the result is
replaced by the one-element list; if it is a list its elements are appended;
a string has a `len` and `result += r_data` extends the result with its
one-character strings (Python list-extend over a str); other shapes raise
`TypeError` from `len(...)`.  Then the adaptive correction: if the response
size is exactly 25, `page_size` is set to 25; finally `page` is incremented. -/
def step200 (st : GetState) (body : JSON) : Except PyError GetState :=
  match classify body with
  | .error e => .error e
  | .ok r_data =>
    match r_data with
    | .dict kvs =>
        .ok { st with
                response_size := 1
                result := [JSON.dict kvs]
                page_size := if (1 : Nat) = 25 then 25 else st.page_size
                page := st.page + 1 }
    | .list xs =>
        .ok { st with
                response_size := xs.length
                result := st.result ++ xs
                page_size := if xs.length = 25 then 25 else st.page_size
                page := st.page + 1 }
    | .str s =>
        .ok { st with
                response_size := s.length
                result := st.result ++ s.data.map (fun c => JSON.str (String.mk [c]))
                page_size := if s.length = 25 then 25 else st.page_size
                page := st.page + 1 }
    | _ => .error .typeError

/-- One iteration of the GET loop body (API.py lines 129-169): issue the
request for the current `(page, page_size)` (recorded in `calls`/`trace`),
then dispatch on the status code.  200 processes the body; 429 sleeps and
leaves every loop variable unchanged, so the same page is retried; any other
status raises `ValueError(f'Error {status} --- {reason}')`.  On error the
state at the point of the raise is returned alongside the error so that the
interaction trace stays observable. -/
def getStep (server : Nat → HTTPResponse) (st : GetState) :
    Except (PyError × GetState) GetState :=
  let resp := server st.calls
  let st1 : GetState :=
    { st with calls := st.calls + 1, trace := st.trace ++ [(st.page, st.page_size)] }
  if resp.status = 200 then
    match step200 st1 resp.body with
    | .ok st2 => .ok st2
    | .error e => .error (e, st1)
  else if resp.status = 429 then
    .ok st1
  else
    .error (.remote resp.status resp.reason, st1)

/-- Outcome of running the GET loop: normal termination of the `while`,
a raised exception (with the state at the raise), or fuel exhaustion
(modelling a non-terminating loop, with the state reached so far). -/
inductive RunResult where
  | done (st : GetState)
  | failed (e : PyError) (st : GetState)
  | fuelOut (st : GetState)

/-- The state carried by a `RunResult`, whichever way the run ended. -/
def RunResult.state : RunResult → GetState
  | .done st => st
  | .failed _ st => st
  | .fuelOut st => st

/-- The GET pagination loop `while response_size >= p['page_size']`
(API.py line 124), with explicit fuel. -/
def runGet (server : Nat → HTTPResponse) : Nat → GetState → RunResult
  | 0, st => .fuelOut st
  | fuel + 1, st =>
    if st.page_size ≤ st.response_size then
      match getStep server st with
      | .ok st2 => runGet server fuel st2
      | .error es => .failed es.1 es.2
    else
      .done st

/-- The loop state set up by the GET arm of `do_request` (API.py lines
118-121): `result = []`, `p['page'] = 1`, `p['page_size'] = 1000`,
`response_size = p['page_size']`. -/
def initState : GetState :=
  { page := 1, page_size := 1000, response_size := 1000
    result := [], calls := 0, trace := [] }

/-- The GET path of `do_request`: run the pagination loop from the initial
state. -/
def do_request_GET (server : Nat → HTTPResponse) (fuel : Nat) : RunResult :=
  runGet server fuel initState

/-- The `methods` list of `do_request` (API.py line 105). -/
def httpMethods : List String := ["GET", "POST", "PUT", "DELETE"]

/-- Result of a full `do_request` call: a GET run, a single write round-trip
(PUT/POST/DELETE return the decoded body, or the raw response when decoding
fails; no claim depends on that duality, so the raw response is returned),
or an argument-validation error raised before any network activity. -/
inductive DoResult where
  | get (r : RunResult)
  | write (resp : HTTPResponse)
  | errored (e : PyError)

/-- `Hudu.do_request` (API.py lines 102-189): validate the verb, then the
endpoint, then dispatch.  The validation errors are produced without
consulting the `server` oracle, which is the embedding of "raised before any
network call". -/
def do_request (server : Nat → HTTPResponse) (fuel : Nat)
    (method : String) (endpoint : Option String) : DoResult :=
  if method ∈ httpMethods then
    if endpoint = none then
      .errored .missingEndpoint
    else if method = "GET" then
      .get (do_request_GET server fuel)
    else
      .write (server 0)
  else
    .errored .invalidMethod

/-- One fetched entry used to build a lookup table at construction
(API.py lines 85-93): each element of the paginated `companies` or
`asset_layouts` result supplies a display `name` and a numeric `id`. -/
structure LEntry where
  name : String
  id : Int
deriving DecidableEq

/-- A key (equally, a stored value) of a lookup table.  Python dictionary
keys of type `str` and `int` never compare equal, so the two domains are the
two constructors. -/
inductive LKey where
  | str (s : String)
  | int (n : Int)
deriving DecidableEq

/-- A lookup table, modelled extensionally as a partial map.  The claims only
read tables, never iterate them, so key-insertion order is irrelevant. -/
def emptyTable : LKey → Option LKey := fun _ => none

/-- Python dict assignment `d[k] = v`: later writes win. -/
def tset (d : LKey → Option LKey) (k v : LKey) : LKey → Option LKey :=
  fun q => if q = k then some v else d q

/-- The loop body of the table construction (API.py lines 90-92):
`lookup_table[c['name']] = c['id']` then `lookup_table[c['id']] = c['name']`. -/
def buildStep (d : LKey → Option LKey) (c : LEntry) : LKey → Option LKey :=
  tset (tset d (.str c.name) (.int c.id)) (.int c.id) (.str c.name)

/-- The lookup table built in `Hudu.__init__` from the fetched entries, in
fetch order, starting from the empty dict `lookup_table = {}`. -/
def buildLookup (entries : List LEntry) : LKey → Option LKey :=
  entries.foldl buildStep emptyTable

/-- The `(method, endpoint, payload)` triple a façade method hands to
`do_request`; for GET the payload is the query-params dict, for PUT/POST the
body dict, serialised verbatim by the engine. -/
structure Call where
  method : String
  endpoint : String
  payload : List (String × JSON)

/-- The names bound at module level in API.py (the imports of lines 7-14 and
the assignments / class statement of lines 16-22).  No global named `params`
exists, and `params` is not a Python builtin. -/
def moduleGlobals : List String :=
  ["datetime", "requests", "json", "Enum", "os", "time", "logging",
   "NullHandler", "HideSensitiveFilter", "HideSensitiveService",
   "null_handler", "logger", "Hudu"]

/-- `Hudu.get_article` (API.py lines 235-236):
`return self.do_request('GET', f'articles/{id}', params)`.  The body never
assigns `params`, so the name is resolved as a module global; when that
lookup fails Python raises `NameError` before `do_request` is entered.  The
success branch is unreachable (the module defines no global `params`), so
the payload it would carry is represented by the empty dict. -/
def get_article (id : Int) : Except PyError Call :=
  if "params" ∈ moduleGlobals then
    .ok { method := "GET", endpoint := "articles/" ++ toString id, payload := [] }
  else
    .error (.nameError "params")

/-- `Hudu.get_asset_layout` (API.py lines 281-282):
`return self.do_request('GET', f'asset_layouts/{id}', params)` — the same
unbound-name situation as `get_article`. -/
def get_asset_layout (id : Int) : Except PyError Call :=
  if "params" ∈ moduleGlobals then
    .ok { method := "GET", endpoint := "asset_layouts/" ++ toString id, payload := [] }
  else
    .error (.nameError "params")

/-- Python `str.lower()` over the characters of the string. -/
def pyLower (s : String) : String :=
  String.mk (s.data.map Char.toLower)

/-- Python `str.replace(" ", "_")`: with a one-character pattern, every
occurrence of the character is replaced. -/
def pySpaceToUnderscore (s : String) : String :=
  String.mk (s.data.map (fun c => if c = ' ' then '_' else c))

/-- An optional string field of a request body: present exactly when the
caller supplied it (`if x is not None: data[...][k] = x`). -/
def optField (k : String) : Option String → List (String × JSON)
  | none => []
  | some v => [(k, JSON.str v)]

/-- `Hudu.update_asset` (API.py lines 439-465).  When `name` or
`asset_layout_id` was not supplied, the code refetches both from
`do_request('GET', 'assets', {'id': id, 'company_id': company_id})[0]`; the
`lookup` oracle models the `(name, asset_layout_id)` fields of that fetched
asset.  The body dict `data['asset']` is assembled in source order, and each
custom-field key is transformed by `key.lower().replace(" ", "_")` with the
pairs wrapped as one-entry dicts in a list. -/
def update_asset (lookup : Int → Int → String × Int) (id company_id : Int)
    (asset_layout_id : Option Int) (name : Option String)
    (primary_serial primary_mail primary_model primary_manufacturer : Option String)
    (custom_fields : Option (List (String × JSON))) : Call :=
  let na : String × Int :=
    match name, asset_layout_id with
    | some n, some a => (n, a)
    | _, _ => lookup id company_id
  let asset : List (String × JSON) :=
    [("asset_layout_id", JSON.num na.2), ("name", JSON.str na.1)]
      ++ optField "primary_serial" primary_serial
      ++ optField "primary_mail" primary_mail
      ++ optField "primary_model" primary_model
      ++ optField "primary_manufacturer" primary_manufacturer
      ++ (match custom_fields with
          | none => []
          | some cf =>
            [("custom_fields",
              JSON.list (cf.map (fun kv =>
                JSON.dict [(pySpaceToUnderscore (pyLower kv.1), kv.2)])))])
  { method := "PUT"
    endpoint := "companies/" ++ toString company_id ++ "/assets/" ++ toString id
    payload := [("asset", JSON.dict asset)] }

/-- `Hudu.get_activity_logs` (API.py lines 195-214).  The two guard `if`s run
in sequence: a `resource_id` without a `resource_type` is reset to `None`,
and then a `resource_type` without a (possibly just reset) `resource_id` is
reset to `None`; no exception is raised.  The params dict collects the
still-set fields in source order; `start_date` is modelled as its
already-ISO-formatted string. -/
def get_activity_logs (user_id : Option Int) (user_email : Option String)
    (resource_id : Option Int) (resource_type : Option String)
    (action_message : Option String) (start_date : Option String) : Call :=
  let rid1 : Option Int :=
    match resource_id, resource_type with
    | some _, none => none
    | _, _ => resource_id
  let rtype1 : Option String :=
    match resource_type, rid1 with
    | some _, none => none
    | _, _ => resource_type
  let params : List (String × JSON) :=
    (match user_id with | none => [] | some v => [("user_id", JSON.num v)])
      ++ optField "user_email" user_email
      ++ (match rid1 with | none => [] | some v => [("resource_id", JSON.num v)])
      ++ optField "resource_type" rtype1
      ++ optField "action_message" action_message
      ++ optField "start_date" start_date
  { method := "GET", endpoint := "activity_logs", payload := params }

/-! ## Unfolding and invariant lemmas for the pagination loop -/

/-- Out of fuel, the loop stops where it is. -/
theorem runGet_zero (server : Nat → HTTPResponse) (st : GetState) :
    runGet server 0 st = .fuelOut st := rfl

/-- One unfolding of the `while` loop. -/
theorem runGet_succ (server : Nat → HTTPResponse) (fuel : Nat) (st : GetState) :
    runGet server (fuel + 1) st =
      if st.page_size ≤ st.response_size then
        match getStep server st with
        | .ok st2 => runGet server fuel st2
        | .error es => .failed es.1 es.2
      else
        .done st := rfl

/-- Processing a 200 body never touches the ghost fields, and either keeps
`page_size` or sets it to 25. -/
theorem step200_ok_state (st : GetState) (body : JSON) (st2 : GetState)
    (h : step200 st body = .ok st2) :
    st2.trace = st.trace ∧ st2.calls = st.calls ∧
    (st2.page_size = st.page_size ∨ st2.page_size = 25) := by
  unfold step200 at h
  split at h
  · exact absurd h (by simp)
  · split at h
    · cases h
      exact ⟨rfl, rfl, by split <;> simp⟩
    · cases h
      exact ⟨rfl, rfl, by split <;> simp⟩
    · cases h
      exact ⟨rfl, rfl, by split <;> simp⟩
    · exact absurd h (by simp)

/-- A successful loop iteration appends exactly its own request to the trace
and either keeps `page_size` or downgrades it to 25. -/
theorem getStep_ok_state (server : Nat → HTTPResponse) (st st2 : GetState)
    (h : getStep server st = .ok st2) :
    st2.trace = st.trace ++ [(st.page, st.page_size)] ∧
    st2.calls = st.calls + 1 ∧
    (st2.page_size = st.page_size ∨ st2.page_size = 25) := by
  unfold getStep at h
  dsimp only at h
  split at h
  · split at h
    · rename_i hs
      cases h
      have := step200_ok_state _ _ _ hs
      simpa using this
    · exact absurd h (by simp)
  · split at h
    · cases h
      exact ⟨rfl, rfl, Or.inl rfl⟩
    · exact absurd h (by simp)

/-- A failing loop iteration also records its own request before raising. -/
theorem getStep_error_state (server : Nat → HTTPResponse) (st st2 : GetState)
    (e : PyError) (h : getStep server st = .error (e, st2)) :
    st2.trace = st.trace ++ [(st.page, st.page_size)] ∧
    st2.calls = st.calls + 1 ∧
    st2.page_size = st.page_size := by
  unfold getStep at h
  dsimp only at h
  split at h
  · split at h
    · exact absurd h (by simp)
    · cases h
      exact ⟨rfl, rfl, rfl⟩
  · split at h
    · exact absurd h (by simp)
    · cases h
      exact ⟨rfl, rfl, rfl⟩

/-- Once `page_size` has been downgraded to 25 it never changes again: every
request the rest of the run issues, however the run ends, carries
`page_size = 25`. -/
theorem runGet_trace_25 (server : Nat → HTTPResponse) :
    ∀ (fuel : Nat) (st : GetState), st.page_size = 25 →
    ∃ ext, (runGet server fuel st).state.trace = st.trace ++ ext ∧
      ∀ pq ∈ ext, pq.2 = 25 := by
  intro fuel
  induction fuel with
  | zero =>
    intro st h
    exact ⟨[], by simp [runGet, RunResult.state], by simp⟩
  | succ f ih =>
    intro st h
    rw [runGet_succ]
    by_cases hc : st.page_size ≤ st.response_size
    · rw [if_pos hc]
      cases hstep : getStep server st with
      | ok st2 =>
        obtain ⟨htr, hcalls, hps⟩ := getStep_ok_state server st st2 hstep
        have hps2 : st2.page_size = 25 := by rcases hps with h1 | h1 <;> omega
        obtain ⟨ext2, hext2, hall2⟩ := ih st2 hps2
        refine ⟨(st.page, st.page_size) :: ext2, ?_, ?_⟩
        · simp only [hext2, htr, List.append_assoc, List.singleton_append]
        · intro pq hpq
          rcases List.mem_cons.mp hpq with h1 | h1
          · subst h1
            exact h
          · exact hall2 pq h1
      | error es =>
        obtain ⟨e, st2⟩ := es
        obtain ⟨htr, hcalls, hps⟩ := getStep_error_state server st st2 e hstep
        refine ⟨[(st.page, st.page_size)], ?_, ?_⟩
        · simpa [RunResult.state] using htr
        · intro pq hpq
          simp only [List.mem_singleton] at hpq
          subst hpq
          exact h
    · rw [if_neg hc]
      exact ⟨[], by simp [RunResult.state], by simp⟩

/-- The first round-trip of a GET run, when the server answers 200 with a
bare list `xs`: one request `(page 1, page_size 1000)` is issued, `xs` is
appended to the empty result, and `page_size` is downgraded exactly when
`xs` has 25 elements. -/
theorem getStep_init_list (server : Nat → HTTPResponse) (xs : List JSON) (r : Option String)
    (h0 : server 0 = ⟨200, .list xs, r⟩) :
    getStep server initState = .ok
      { page := 2, page_size := if xs.length = 25 then 25 else 1000,
        response_size := xs.length, result := xs, calls := 1, trace := [(1, 1000)] } := by
  simp [getStep, step200, classify, initState, h0]

/-- The first round-trip of a GET run, when the server answers 200 with a
mapping whose first value is itself a mapping: the inner mapping becomes the
whole one-element result and the effective response size is 1. -/
theorem getStep_init_wrapped (server : Nat → HTTPResponse) (k : String)
    (kvs rest : List (String × JSON)) (r : Option String)
    (h0 : server 0 = ⟨200, .dict ((k, .dict kvs) :: rest), r⟩) :
    getStep server initState = .ok
      { page := 2, page_size := 1000, response_size := 1,
        result := [JSON.dict kvs], calls := 1, trace := [(1, 1000)] } := by
  simp [getStep, step200, classify, initState, h0]

/-! ## Lemmas about the lookup-table construction -/

/-- Entries whose keys all differ from `k` leave the table unchanged at `k`. -/
theorem foldl_buildStep_preserve (es : List LEntry) (d : LKey → Option LKey) (k : LKey)
    (h : ∀ e ∈ es, LKey.str e.name ≠ k ∧ LKey.int e.id ≠ k) :
    es.foldl buildStep d k = d k := by
  induction es generalizing d with
  | nil => rfl
  | cons c tl ih =>
    have hc := h c (List.mem_cons_self c tl)
    rw [List.foldl_cons, ih _ (fun e he => h e (List.mem_cons_of_mem c he))]
    unfold buildStep tset
    rw [if_neg (fun hk => hc.2 hk.symm), if_neg (fun hk => hc.1 hk.symm)]

/-- Right after processing entry `c`, its name maps to its id. -/
theorem buildStep_name (d : LKey → Option LKey) (c : LEntry) :
    buildStep d c (LKey.str c.name) = some (LKey.int c.id) := by
  unfold buildStep tset
  rw [if_neg (by simp), if_pos rfl]

/-- Right after processing entry `c`, its id maps to its name. -/
theorem buildStep_id (d : LKey → Option LKey) (c : LEntry) :
    buildStep d c (LKey.int c.id) = some (LKey.str c.name) := by
  unfold buildStep tset
  rw [if_pos rfl]

/-- When names are pairwise distinct and ids are pairwise distinct, each
entry of the built table maps name to id and id to name. -/
theorem buildLookup_mem (es : List LEntry) :
    ∀ d : LKey → Option LKey,
    (es.map LEntry.name).Nodup → (es.map LEntry.id).Nodup →
    ∀ e ∈ es,
      es.foldl buildStep d (LKey.str e.name) = some (LKey.int e.id) ∧
      es.foldl buildStep d (LKey.int e.id) = some (LKey.str e.name) := by
  induction es with
  | nil =>
    intro d _ _ e he
    cases he
  | cons c tl ih =>
    intro d hn hi e he
    simp only [List.map_cons, List.nodup_cons] at hn hi
    rcases List.mem_cons.mp he with rfl | he2
    · constructor
      · rw [List.foldl_cons,
          foldl_buildStep_preserve tl (buildStep d e) (LKey.str e.name) ?_]
        · exact buildStep_name d e
        · intro e2 he2
          refine ⟨?_, by simp⟩
          intro hcontra
          apply hn.1
          have hname : e2.name = e.name := by injection hcontra
          rw [← hname]
          exact List.mem_map_of_mem LEntry.name he2
      · rw [List.foldl_cons,
          foldl_buildStep_preserve tl (buildStep d e) (LKey.int e.id) ?_]
        · exact buildStep_id d e
        · intro e2 he2
          refine ⟨by simp, ?_⟩
          intro hcontra
          apply hi.1
          have hid : e2.id = e.id := by injection hcontra
          rw [← hid]
          exact List.mem_map_of_mem LEntry.id he2
    · rw [List.foldl_cons]
      exact ih (buildStep d c) hn.2 hi.2 e he2

/-! ## Concrete transports used by counterexamples and witnesses -/

/-- A server that answers every request with a bare list of 25 nulls. -/
def server25 : Nat → HTTPResponse :=
  fun _ => ⟨200, .list (List.replicate 25 .null), none⟩

/-- A server that answers every request with a bare two-element list. -/
def serverSmall : Nat → HTTPResponse :=
  fun _ => ⟨200, .list [.null, .null], none⟩

/-- A server that answers with a wrapped single object. -/
def serverWrapped : Nat → HTTPResponse :=
  fun _ => ⟨200, .dict [("asset", .dict [("id", .num 7)])], none⟩

/-- A server that always rate-limits. -/
def server429 : Nat → HTTPResponse :=
  fun _ => ⟨429, .null, none⟩

/-- A server that always fails with 500 and a reason phrase. -/
def server500 : Nat → HTTPResponse :=
  fun _ => ⟨500, .null, some "Internal Server Error"⟩

/-- A server that answers every request with an empty list. -/
def serverEmpty : Nat → HTTPResponse :=
  fun _ => ⟨200, .list [], none⟩

/-! ## The claims -/

/-- C1, counterexample: the claim says a first 200 response that is a bare
list of length strictly below the requested page size 1000 yields exactly one
round-trip.  With a first response of exactly 25 items (25 < 1000) the
adaptive downgrade sets `page_size` to 25, the loop guard `25 ≥ 25` holds,
and the engine keeps issuing further requests: after 3 fuel it has already
made 3 round-trips, not 1. -/
theorem C1_counterexample_page_size_25 :
    (server25 0).status = 200 ∧
    (server25 0).body = JSON.list (List.replicate 25 JSON.null) ∧
    (List.replicate 25 JSON.null).length < 1000 ∧
    (do_request_GET server25 3).state.calls = 3 := by
  exact ⟨rfl, rfl, by simp, rfl⟩

/-- C1 (amended): for every GET call through `do_request` whose first HTTP
200 response decodes to a bare JSON list of length strictly less than the
requested page size 1000 and different from 25, the engine performs exactly
one HTTP round-trip (the trace is the single request `(page 1, page_size
1000)`) and returns that list as the result. -/
theorem C1_bare_list_single_roundtrip (server : Nat → HTTPResponse)
    (xs : List JSON) (r : Option String) (fuel : Nat)
    (hfuel : 2 ≤ fuel)
    (h0 : server 0 = ⟨200, .list xs, r⟩)
    (hlt : xs.length < 1000) (h25 : xs.length ≠ 25) :
    do_request_GET server fuel =
      .done { page := 2, page_size := 1000, response_size := xs.length,
              result := xs, calls := 1, trace := [(1, 1000)] } := by
  obtain ⟨f, rfl⟩ : ∃ f, fuel = f + 2 := ⟨fuel - 2, by omega⟩
  have hstep := getStep_init_list server xs r h0
  rw [if_neg h25] at hstep
  show runGet server (f + 1 + 1) initState = _
  rw [runGet_succ, if_pos (show initState.page_size ≤ initState.response_size by decide),
    hstep]
  dsimp only
  rw [runGet_succ, if_neg (show ¬((1000 : Nat) ≤ xs.length) from Nat.not_le.mpr hlt)]

/-- C1, witness: a two-element first page at fuel 2. -/
theorem C1_bare_list_single_roundtrip_witness :
    2 ≤ 2 ∧
    serverSmall 0 = ⟨200, .list [.null, .null], none⟩ ∧
    ([JSON.null, JSON.null] : List JSON).length < 1000 ∧
    ([JSON.null, JSON.null] : List JSON).length ≠ 25 ∧
    do_request_GET serverSmall 2 =
      .done { page := 2, page_size := 1000,
              response_size := ([JSON.null, JSON.null] : List JSON).length,
              result := [JSON.null, JSON.null], calls := 1, trace := [(1, 1000)] } :=
  ⟨by decide, rfl, by decide, by decide,
   C1_bare_list_single_roundtrip serverSmall [JSON.null, JSON.null] none 2
     (by decide) rfl (by decide) (by decide)⟩

/-- C2: for every GET call whose first page classifies to a list of exactly
25 items while the requested page size was 1000, the first request is issued
with `page_size` 1000 and every subsequent request of the run — however it
ends — is issued with `page_size` 25: the adaptive downgrade fires on the
first page and never changes the value again. -/
theorem C2_adaptive_downgrade_once (server : Nat → HTTPResponse) (xs0 : List JSON)
    (hstatus : (server 0).status = 200)
    (hbody : classify (server 0).body = .ok (.list xs0))
    (hlen : xs0.length = 25) (fuel : Nat) :
    (∀ pq ∈ ((do_request_GET server fuel).state.trace.take 1), pq.2 = 1000) ∧
    (∀ pq ∈ ((do_request_GET server fuel).state.trace.drop 1), pq.2 = 25) := by
  have hstep : getStep server initState = .ok
      { page := 2, page_size := 25, response_size := 25,
        result := xs0, calls := 1, trace := [(1, 1000)] } := by
    simp [getStep, step200, initState, hstatus, hbody, hlen]
  cases fuel with
  | zero =>
    simp [do_request_GET, runGet_zero, initState, RunResult.state]
  | succ f =>
    show (∀ pq ∈ ((runGet server (f + 1) initState).state.trace.take 1), pq.2 = 1000) ∧
      (∀ pq ∈ ((runGet server (f + 1) initState).state.trace.drop 1), pq.2 = 25)
    rw [runGet_succ, if_pos (show initState.page_size ≤ initState.response_size by decide),
      hstep]
    dsimp only
    obtain ⟨ext, hext, hall⟩ := runGet_trace_25 server f
      { page := 2, page_size := 25, response_size := 25,
        result := xs0, calls := 1, trace := [(1, 1000)] } rfl
    rw [hext]
    constructor
    · intro pq hpq
      simp at hpq
      subst hpq
      rfl
    · intro pq hpq
      simp at hpq
      exact hall pq hpq

/-- C2, witness: a server whose every page is exactly 25 items, run with
fuel 3 (so two subsequent requests are observable in the trace). -/
theorem C2_adaptive_downgrade_once_witness :
    (server25 0).status = 200 ∧
    classify (server25 0).body = .ok (.list (List.replicate 25 .null)) ∧
    (List.replicate 25 JSON.null).length = 25 ∧
    ((∀ pq ∈ ((do_request_GET server25 3).state.trace.take 1), pq.2 = 1000) ∧
     (∀ pq ∈ ((do_request_GET server25 3).state.trace.drop 1), pq.2 = 25)) :=
  ⟨rfl, rfl, by simp,
   C2_adaptive_downgrade_once server25 (List.replicate 25 .null) rfl rfl (by simp) 3⟩

/-- C3: for every GET call whose first HTTP 200 response decodes to a
mapping whose first value is itself a mapping, the run terminates
immediately with the one-element result holding that inner mapping, having
issued exactly one request: no second page is fetched. -/
theorem C3_wrapped_single_object (server : Nat → HTTPResponse) (k : String)
    (kvs rest : List (String × JSON)) (r : Option String) (fuel : Nat)
    (hfuel : 2 ≤ fuel)
    (h0 : server 0 = ⟨200, .dict ((k, .dict kvs) :: rest), r⟩) :
    do_request_GET server fuel =
      .done { page := 2, page_size := 1000, response_size := 1,
              result := [JSON.dict kvs], calls := 1, trace := [(1, 1000)] } := by
  obtain ⟨f, rfl⟩ : ∃ f, fuel = f + 2 := ⟨fuel - 2, by omega⟩
  have hstep := getStep_init_wrapped server k kvs rest r h0
  show runGet server (f + 1 + 1) initState = _
  rw [runGet_succ, if_pos (show initState.page_size ≤ initState.response_size by decide),
    hstep]
  dsimp only
  rw [runGet_succ, if_neg (show ¬((1000 : Nat) ≤ 1) by decide)]

/-- C3, witness: a wrapped single asset object. -/
theorem C3_wrapped_single_object_witness :
    2 ≤ 2 ∧
    serverWrapped 0 = ⟨200, .dict [("asset", .dict [("id", .num 7)])], none⟩ ∧
    do_request_GET serverWrapped 2 =
      .done { page := 2, page_size := 1000, response_size := 1,
              result := [JSON.dict [("id", JSON.num 7)]], calls := 1,
              trace := [(1, 1000)] } :=
  ⟨by decide, rfl,
   C3_wrapped_single_object serverWrapped "asset" [("id", .num 7)] [] none 2
     (by decide) rfl⟩

/-- C4: a 429 response received at any point of a GET run consumes the
round-trip and re-enters the loop in a state identical except for the ghost
interaction log: `page`, `page_size` and the accumulated `result` are
untouched, so the next request retries the same page with the same page
size, nothing is appended for the 429 response, no duplication can arise
from the retry, and no error is surfaced — the run continues exactly as if
resumed. -/
theorem C4_rate_limited_retries_same_page (server : Nat → HTTPResponse)
    (st : GetState) (fuel : Nat)
    (h429 : (server st.calls).status = 429)
    (hcond : st.page_size ≤ st.response_size) :
    runGet server (fuel + 1) st =
      runGet server fuel
        { st with calls := st.calls + 1,
                  trace := st.trace ++ [(st.page, st.page_size)] } := by
  rw [runGet_succ, if_pos hcond]
  have hstep : getStep server st = .ok
      { st with calls := st.calls + 1,
                trace := st.trace ++ [(st.page, st.page_size)] } := by
    simp [getStep, h429]
  rw [hstep]

/-- C4, witness: a 429 on the very first request. -/
theorem C4_rate_limited_retries_same_page_witness :
    (server429 initState.calls).status = 429 ∧
    initState.page_size ≤ initState.response_size ∧
    runGet server429 (0 + 1) initState =
      runGet server429 0
        { initState with calls := initState.calls + 1,
                         trace := initState.trace ++ [(initState.page, initState.page_size)] } :=
  ⟨rfl, by decide, C4_rate_limited_retries_same_page server429 initState 0 rfl (by decide)⟩

/-- C5: any status other than 200 and 429, received at any point of a GET
run, aborts the run with the remote error carrying that very status code and
the optional server-supplied reason phrase; the outcome is a raise, so no
partial result is returned to the caller. -/
theorem C5_remote_error_preserves_status (server : Nat → HTTPResponse)
    (st : GetState) (fuel : Nat)
    (hcond : st.page_size ≤ st.response_size)
    (h200 : (server st.calls).status ≠ 200)
    (h429 : (server st.calls).status ≠ 429) :
    runGet server (fuel + 1) st =
      .failed (.remote (server st.calls).status (server st.calls).reason)
        { st with calls := st.calls + 1,
                  trace := st.trace ++ [(st.page, st.page_size)] } := by
  rw [runGet_succ, if_pos hcond]
  have hstep : getStep server st = .error
      (.remote (server st.calls).status (server st.calls).reason,
       { st with calls := st.calls + 1,
                 trace := st.trace ++ [(st.page, st.page_size)] }) := by
    simp [getStep, h200, h429]
  rw [hstep]

/-- C5, witness: a 500 with a reason phrase on the first request. -/
theorem C5_remote_error_preserves_status_witness :
    initState.page_size ≤ initState.response_size ∧
    (server500 initState.calls).status ≠ 200 ∧
    (server500 initState.calls).status ≠ 429 ∧
    runGet server500 (0 + 1) initState =
      .failed (.remote (server500 initState.calls).status (server500 initState.calls).reason)
        { initState with calls := initState.calls + 1,
                         trace := initState.trace ++ [(initState.page, initState.page_size)] } :=
  ⟨by decide, by decide, by decide,
   C5_remote_error_preserves_status server500 initState 0 (by decide) (by decide) (by decide)⟩

/-- C6: an HTTP verb outside GET/POST/PUT/DELETE, or a missing endpoint,
makes `do_request` raise one of the two argument `ValueError`s; the result
does not depend on the transport or the fuel in any way, which is the
embedding of the error being raised before any network call. -/
theorem C6_invalid_argument_before_network (server srv2 : Nat → HTTPResponse)
    (fuel fuel2 : Nat) (method : String) (endpoint : Option String)
    (h : method ∉ httpMethods ∨ endpoint = none) :
    (do_request server fuel method endpoint = .errored .invalidMethod ∨
     do_request server fuel method endpoint = .errored .missingEndpoint) ∧
    do_request server fuel method endpoint = do_request srv2 fuel2 method endpoint := by
  by_cases hm : method ∈ httpMethods
  · have he : endpoint = none := by tauto
    subst he
    constructor
    · right
      simp [do_request, hm]
    · simp [do_request, hm]
  · constructor
    · left
      simp [do_request, hm]
    · simp [do_request, hm]

/-- C6, witness: the verb PATCH with an endpoint present. -/
theorem C6_invalid_argument_before_network_witness :
    (("PATCH" : String) ∉ httpMethods ∨ (some "articles" : Option String) = none) ∧
    ((do_request serverEmpty 1 "PATCH" (some "articles") = .errored .invalidMethod ∨
      do_request serverEmpty 1 "PATCH" (some "articles") = .errored .missingEndpoint) ∧
     do_request serverEmpty 1 "PATCH" (some "articles") =
       do_request server429 2 "PATCH" (some "articles")) :=
  ⟨Or.inl (by decide),
   C6_invalid_argument_before_network serverEmpty server429 1 2 "PATCH" (some "articles")
     (Or.inl (by decide))⟩

/-- C7, counterexample: the unconditional round-trip invariant fails when two
fetched entries share a name.  Building the table from
`[{name: "A", id: 1}, {name: "A", id: 2}]`, the second write to key `"A"`
overwrites the first, so `table[table[1]] = table["A"] = 2 ≠ 1` for the first
entry, which is in the collection. -/
theorem C7_counterexample_duplicate_names :
    LEntry.mk "A" 1 ∈ [LEntry.mk "A" 1, LEntry.mk "A" 2] ∧
    (buildLookup [LEntry.mk "A" 1, LEntry.mk "A" 2] (LKey.int 1)).bind
      (buildLookup [LEntry.mk "A" 1, LEntry.mk "A" 2]) ≠ some (LKey.int 1) := by
  exact ⟨by simp, by decide⟩

/-- C7 (amended): for a lookup table built from fetched entries whose names
are pairwise distinct and whose ids are pairwise distinct, every entry
satisfies the round-trip invariant `table[table[id]] = id` and
`table[table[name]] = name`, name keys and id keys coexisting in the one
mapping. -/
theorem C7_lookup_roundtrip_of_nodup (es : List LEntry)
    (hn : (es.map LEntry.name).Nodup) (hi : (es.map LEntry.id).Nodup) :
    ∀ e ∈ es,
      (buildLookup es (LKey.int e.id)).bind (buildLookup es) = some (LKey.int e.id) ∧
      (buildLookup es (LKey.str e.name)).bind (buildLookup es) = some (LKey.str e.name) := by
  intro e he
  obtain ⟨h1, h2⟩ := buildLookup_mem es emptyTable hn hi e he
  unfold buildLookup
  constructor
  · rw [h2]
    simpa using h1
  · rw [h1]
    simpa using h2

/-- C7, witness: the table built from companies `[{name: "Acme", id: 1}]`
satisfies `table["Acme"] = 1`, `table[1] = "Acme"` and both round trips. -/
theorem C7_lookup_roundtrip_of_nodup_witness :
    ([LEntry.mk "Acme" 1].map LEntry.name).Nodup ∧
    ([LEntry.mk "Acme" 1].map LEntry.id).Nodup ∧
    LEntry.mk "Acme" 1 ∈ [LEntry.mk "Acme" 1] ∧
    buildLookup [LEntry.mk "Acme" 1] (LKey.str "Acme") = some (LKey.int 1) ∧
    buildLookup [LEntry.mk "Acme" 1] (LKey.int 1) = some (LKey.str "Acme") ∧
    ((buildLookup [LEntry.mk "Acme" 1] (LKey.int 1)).bind (buildLookup [LEntry.mk "Acme" 1])
        = some (LKey.int 1) ∧
     (buildLookup [LEntry.mk "Acme" 1] (LKey.str "Acme")).bind (buildLookup [LEntry.mk "Acme" 1])
        = some (LKey.str "Acme")) :=
  ⟨by decide, by decide, by decide, by decide, by decide,
   C7_lookup_roundtrip_of_nodup [LEntry.mk "Acme" 1] (by decide) (by decide)
     (LEntry.mk "Acme" 1) (by decide)⟩

/-- C8: the claim says `get_article(id)` issues a GET to `articles/{id}`;
the code instead evaluates the unbound name `params` and raises `NameError`
before `do_request` is ever entered, and `get_asset_layout(id)` has the same
defect.  This theorem evaluates both methods at the failing input `id = 1`. -/
theorem C8_get_article_name_error :
    get_article 1 = .error (.nameError "params") ∧
    get_asset_layout 1 = .error (.nameError "params") := by
  constructor <;> rfl

/-- C9: on `update_asset` with a supplied custom-fields mapping, the body
transmitted under the `asset` key carries, as its last entry, the
`custom_fields` list in which every caller-supplied key has been lower-cased
with spaces replaced by underscores; in particular `"Serial Number"` is
transmitted as `"serial_number"`. -/
theorem C9_custom_field_key_normalization (lookup : Int → Int → String × Int)
    (id company_id : Int) (alid : Option Int)
    (name ps pm pmo pmf : Option String)
    (cf : List (String × JSON)) (hcf : cf ≠ []) :
    ∃ asset : List (String × JSON),
      (update_asset lookup id company_id alid name ps pm pmo pmf (some cf)).payload
          = [("asset", JSON.dict asset)] ∧
      asset.getLast? = some ("custom_fields",
        JSON.list (cf.map (fun kv =>
          JSON.dict [(pySpaceToUnderscore (pyLower kv.1), kv.2)]))) ∧
      pySpaceToUnderscore (pyLower "Serial Number") = "serial_number" := by
  refine ⟨_, rfl, ?_, rfl⟩
  rw [List.getLast?_concat]

/-- C9, witness: updating an asset with the single custom field
`"Serial Number"`. -/
theorem C9_custom_field_key_normalization_witness :
    ([(("Serial Number" : String), JSON.str "ABC123")] : List (String × JSON)) ≠ [] ∧
    (∃ asset : List (String × JSON),
      (update_asset (fun _ _ => ("srv", 0)) 1 2 (some 3) (some "box") none none none none
          (some [("Serial Number", JSON.str "ABC123")])).payload
          = [("asset", JSON.dict asset)] ∧
      asset.getLast? = some ("custom_fields",
        JSON.list (([(("Serial Number" : String), JSON.str "ABC123")]).map (fun kv =>
          JSON.dict [(pySpaceToUnderscore (pyLower kv.1), kv.2)]))) ∧
      pySpaceToUnderscore (pyLower "Serial Number") = "serial_number") :=
  ⟨List.cons_ne_nil _ _,
   C9_custom_field_key_normalization (fun _ _ => ("srv", 0)) 1 2 (some 3) (some "box")
     none none none none [("Serial Number", JSON.str "ABC123")] (List.cons_ne_nil _ _)⟩

/-- C10: when exactly one of `resource_id` and `resource_type` is supplied to
`get_activity_logs`, no error is raised (the embedded function is total,
matching the raise-free source) and the supplied half is silently dropped:
the params mapping handed to the engine contains neither a `resource_id` nor
a `resource_type` key. -/
theorem C10_mismatched_resource_pair_dropped (user_id : Option Int)
    (user_email : Option String) (resource_id : Option Int)
    (resource_type : Option String) (action_message : Option String)
    (start_date : Option String)
    (h : (resource_id ≠ none ∧ resource_type = none) ∨
         (resource_id = none ∧ resource_type ≠ none)) :
    "resource_id" ∉ (get_activity_logs user_id user_email resource_id resource_type
        action_message start_date).payload.map Prod.fst ∧
    "resource_type" ∉ (get_activity_logs user_id user_email resource_id resource_type
        action_message start_date).payload.map Prod.fst := by
  rcases h with ⟨h1, h2⟩ | ⟨h1, h2⟩
  · subst h2
    obtain ⟨v, rfl⟩ := Option.ne_none_iff_exists'.mp h1
    cases user_id <;> cases user_email <;> cases action_message <;> cases start_date <;>
      simp [get_activity_logs, optField]
  · subst h1
    obtain ⟨v, rfl⟩ := Option.ne_none_iff_exists'.mp h2
    cases user_id <;> cases user_email <;> cases action_message <;> cases start_date <;>
      simp [get_activity_logs, optField]

/-- C10, witness: only `resource_id = 5` supplied. -/
theorem C10_mismatched_resource_pair_dropped_witness :
    (((some 5 : Option Int) ≠ none ∧ (none : Option String) = none) ∨
     ((some 5 : Option Int) = none ∧ (none : Option String) ≠ none)) ∧
    ("resource_id" ∉ (get_activity_logs none none (some 5) none none none).payload.map Prod.fst ∧
     "resource_type" ∉ (get_activity_logs none none (some 5) none none none).payload.map Prod.fst) :=
  ⟨Or.inl ⟨Option.some_ne_none 5, rfl⟩,
   C10_mismatched_resource_pair_dropped none none (some 5) none none none
     (Or.inl ⟨Option.some_ne_none 5, rfl⟩)⟩
